import Mathlib

/-!
Shallow embedding of the Linear→Lark webhook relay (src/src/main.rs).

Bytes are modelled as `Nat` values below 256, byte strings as `List Nat`.
Machine 32-bit arithmetic is `Nat` with explicit `% 4294967296`.
The Rust `&str` secret enters `verify_signature` only through
`secret.as_bytes()`, so the secret is modelled directly as its byte list.
-/

-- ---------------------------------------------------------------------------
-- SHA-256 (FIPS 180-4), executable over byte lists
-- ---------------------------------------------------------------------------

/-- The modulus 2^32 of 32-bit machine arithmetic. -/
def u32Mod : Nat := 4294967296

/-- Rotate right on 32-bit words. Inputs are kept below `u32Mod`. -/
def rotr32 (n x : Nat) : Nat :=
  ((x >>> n) ||| ((x &&& (2 ^ n - 1)) <<< (32 - n))) % u32Mod

/-- The 64 SHA-256 round constants, written in decimal. -/
def shaK : List Nat :=
  [1116352408, 1899447441, 3049323471, 3921009573, 961987163,
   1508970993, 2453635748, 2870763221, 3624381080, 310598401,
   607225278, 1426881987, 1925078388, 2162078206, 2614888103,
   3248222580, 3835390401, 4022224774, 264347078, 604807628,
   770255983, 1249150122, 1555081692, 1996064986, 2554220882,
   2821834349, 2952996808, 3210313671, 3336571891, 3584528711,
   113926993, 338241895, 666307205, 773529912, 1294757372,
   1396182291, 1695183700, 1986661051, 2177026350, 2456956037,
   2730485921, 2820302411, 3259730800, 3345764771, 3516065817,
   3600352804, 4094571909, 275423344, 430227734, 506948616,
   659060556, 883997877, 958139571, 1322822218, 1537002063,
   1747873779, 1955562222, 2024104815, 2227730452, 2361852424,
   2428436474, 2756734187, 3204031479, 3329325298]

/-- The SHA-256 initial hash value, written in decimal. -/
def shaH0 : List Nat :=
  [1779033703, 3144134277, 1013904242, 2773480762,
   1359893119, 2600822924, 528734635, 1541459225]

/-- Working state of one SHA-256 compression round. -/
structure ShaState where
  a : Nat
  b : Nat
  c : Nat
  d : Nat
  e : Nat
  f : Nat
  g : Nat
  h : Nat

/-- One SHA-256 compression round; `kw` is the round constant and schedule word. -/
def shaRound (s : ShaState) (kw : Nat × Nat) : ShaState :=
  let S1 := rotr32 6 s.e ^^^ rotr32 11 s.e ^^^ rotr32 25 s.e
  let ch := (s.e &&& s.f) ^^^ ((s.e ^^^ 0xffffffff) &&& s.g)
  let t1 := (s.h + S1 + ch + kw.1 + kw.2) % u32Mod
  let S0 := rotr32 2 s.a ^^^ rotr32 13 s.a ^^^ rotr32 22 s.a
  let maj := (s.a &&& s.b) ^^^ (s.a &&& s.c) ^^^ (s.b &&& s.c)
  let t2 := (S0 + maj) % u32Mod
  ⟨(t1 + t2) % u32Mod, s.a, s.b, s.c, (s.d + t1) % u32Mod, s.e, s.f, s.g⟩

/-- Extend a 16-word block to the 64-word message schedule (`n` = words to add). -/
def extendW : Nat → List Nat → List Nat
  | 0, w => w
  | n + 1, w =>
    let i := w.length
    let w15 := w.getD (i - 15) 0
    let w2 := w.getD (i - 2) 0
    let w16 := w.getD (i - 16) 0
    let w7 := w.getD (i - 7) 0
    let s0 := rotr32 7 w15 ^^^ rotr32 18 w15 ^^^ (w15 >>> 3)
    let s1 := rotr32 17 w2 ^^^ rotr32 19 w2 ^^^ (w2 >>> 10)
    extendW n (w ++ [(w16 + s0 + w7 + s1) % u32Mod])

/-- Compress one 16-word block into the 8-word chaining value. -/
def compressBlock (hv : List Nat) (block : List Nat) : List Nat :=
  let w := extendW 48 block
  let init : ShaState :=
    ⟨hv.getD 0 0, hv.getD 1 0, hv.getD 2 0, hv.getD 3 0,
     hv.getD 4 0, hv.getD 5 0, hv.getD 6 0, hv.getD 7 0⟩
  let s := (shaK.zip w).foldl shaRound init
  [(hv.getD 0 0 + s.a) % u32Mod, (hv.getD 1 0 + s.b) % u32Mod,
   (hv.getD 2 0 + s.c) % u32Mod, (hv.getD 3 0 + s.d) % u32Mod,
   (hv.getD 4 0 + s.e) % u32Mod, (hv.getD 5 0 + s.f) % u32Mod,
   (hv.getD 6 0 + s.g) % u32Mod, (hv.getD 7 0 + s.h) % u32Mod]

/-- Big-endian 8-byte encoding of a 64-bit length value. -/
def toBE8 (n : Nat) : List Nat :=
  [(n >>> 56) &&& 255, (n >>> 48) &&& 255, (n >>> 40) &&& 255, (n >>> 32) &&& 255,
   (n >>> 24) &&& 255, (n >>> 16) &&& 255, (n >>> 8) &&& 255, n &&& 255]

/-- SHA-256 padding: append 0x80, zeros, and the 64-bit big-endian bit length. -/
def padMessage (msg : List Nat) : List Nat :=
  let len := msg.length
  let zeros := (64 - ((len + 9) % 64)) % 64
  msg ++ 128 :: (List.replicate zeros 0 ++ toBE8 (len * 8))

/-- Group bytes into big-endian 32-bit words. -/
def bytesToWords : List Nat → List Nat
  | b0 :: b1 :: b2 :: b3 :: rest =>
    ((b0 <<< 24) ||| (b1 <<< 16) ||| (b2 <<< 8) ||| b3) :: bytesToWords rest
  | _ => []

/-- Group words into 16-word blocks. -/
def wordsToBlocks : List Nat → List (List Nat)
  | w0 :: w1 :: w2 :: w3 :: w4 :: w5 :: w6 :: w7 ::
    w8 :: w9 :: w10 :: w11 :: w12 :: w13 :: w14 :: w15 :: rest =>
    [w0, w1, w2, w3, w4, w5, w6, w7, w8, w9, w10, w11, w12, w13, w14, w15]
      :: wordsToBlocks rest
  | _ => []

/-- Split a 32-bit word into four big-endian bytes. -/
def wordToBytes (w : Nat) : List Nat :=
  [(w >>> 24) &&& 255, (w >>> 16) &&& 255, (w >>> 8) &&& 255, w &&& 255]

/-- SHA-256 of a byte list, as a 32-byte digest. -/
def sha256 (msg : List Nat) : List Nat :=
  let blocks := wordsToBlocks (bytesToWords (padMessage msg))
  let hv := blocks.foldl compressBlock shaH0
  hv.foldr (fun w acc => wordToBytes w ++ acc) []

-- ---------------------------------------------------------------------------
-- HMAC-SHA256 (RFC 2104): the construction `Hmac::<Sha256>` computes.
-- Any key length is accepted (long keys are first hashed), which is why the
-- Rust `Hmac::<Sha256>::new_from_slice` never returns an error.
-- ---------------------------------------------------------------------------

/-- HMAC-SHA256 of `msg` under `key`, as a 32-byte digest. -/
def hmacSha256 (key msg : List Nat) : List Nat :=
  let k0 := if key.length > 64 then sha256 key else key
  let kPad := k0 ++ List.replicate (64 - k0.length) 0
  let ipad := kPad.map (fun b => b ^^^ 0x36)
  let opad := kPad.map (fun b => b ^^^ 0x5c)
  sha256 (opad ++ sha256 (ipad ++ msg))

-- ---------------------------------------------------------------------------
-- Lowercase hex encoding: what `hex::encode` produces.
-- ---------------------------------------------------------------------------

/-- Lowercase hex digit for a nibble. -/
def hexDigitChar (n : Nat) : Char :=
  match n with
  | 0 => '0' | 1 => '1' | 2 => '2' | 3 => '3' | 4 => '4'
  | 5 => '5' | 6 => '6' | 7 => '7' | 8 => '8' | 9 => '9'
  | 10 => 'a' | 11 => 'b' | 12 => 'c' | 13 => 'd' | 14 => 'e'
  | _ => 'f'

/-- The character list of the lowercase hex encoding of a byte list. -/
def hexChars (bytes : List Nat) : List Char :=
  bytes.foldr (fun b acc => hexDigitChar ((b >>> 4) &&& 15) :: hexDigitChar (b &&& 15) :: acc) []

/-- Lowercase hex encoding of a byte list (`hex::encode`). -/
def hexEncode (bytes : List Nat) : String :=
  String.mk (hexChars bytes)

-- ---------------------------------------------------------------------------
-- src/src/main.rs lines 92-99: signature verification
-- ---------------------------------------------------------------------------

/-- Rust `fn verify_signature(secret, body, signature)`: HMAC-SHA256 of the raw body
under the secret's bytes, lowercase-hex encoded and compared with the
presented signature string. The `new_from_slice` failure branch of the Rust
code is unreachable (HMAC accepts every key length), so the embedding is the
comparison alone. -/
def verify_signature (secret : List Nat) (body : List Nat) (signature : String) : Bool :=
  let expected := hexEncode (hmacSha256 secret body)
  expected == signature

-- ---------------------------------------------------------------------------
-- Uppercase hex encoding: stated by claim C10 as the rejected alternative.
-- Not part of the source; used only on the spec side of theorems.
-- ---------------------------------------------------------------------------

/-- Uppercase hex digit for a nibble. -/
def hexUpperDigitChar (n : Nat) : Char :=
  match n with
  | 0 => '0' | 1 => '1' | 2 => '2' | 3 => '3' | 4 => '4'
  | 5 => '5' | 6 => '6' | 7 => '7' | 8 => '8' | 9 => '9'
  | 10 => 'A' | 11 => 'B' | 12 => 'C' | 13 => 'D' | 14 => 'E'
  | _ => 'F'

/-- The character list of the uppercase hex encoding of a byte list. -/
def hexUpperChars (bytes : List Nat) : List Char :=
  bytes.foldr
    (fun b acc => hexUpperDigitChar ((b >>> 4) &&& 15) :: hexUpperDigitChar (b &&& 15) :: acc) []

/-- Uppercase hex encoding of a byte list. -/
def hexEncodeUpper (bytes : List Nat) : String :=
  String.mk (hexUpperChars bytes)

-- ---------------------------------------------------------------------------
-- src/src/main.rs lines 30-58: Linear webhook models
-- ---------------------------------------------------------------------------

/-- Rust `struct IssueState`, with its one field `name`. -/
structure IssueState where
  name : String
deriving DecidableEq

/-- Rust `struct Assignee`, with its one field `name`. -/
structure Assignee where
  name : String
deriving DecidableEq

/-- Rust `struct Issue`: `priority: u8` is a `Nat` kept below 256 by
deserialization. -/
structure Issue where
  id : String
  title : String
  priority : Nat
  state : IssueState
  assignee : Option Assignee
  identifier : String
deriving DecidableEq

/-- Rust `struct LinearPayload`: the serde field `type` is renamed to `kind`. -/
structure LinearPayload where
  action : String
  kind : String
  data : Issue
  url : String
deriving DecidableEq

-- ---------------------------------------------------------------------------
-- JSON values (`serde_json::Value`), with numbers as integers.
-- ---------------------------------------------------------------------------

/-- JSON value tree. Numbers are modelled as integers; a non-integer number
would in any case fail the only numeric deserialization (`u8`). -/
inductive Json where
  | null : Json
  | bool (b : Bool) : Json
  | num (n : Int) : Json
  | str (s : String) : Json
  | arr (elems : List Json) : Json
  | obj (fields : List (String × Json)) : Json

-- ---------------------------------------------------------------------------
-- src/src/main.rs lines 64-86: Lark card models
-- ---------------------------------------------------------------------------

/-- Rust `struct LarkTitle`, with fields `content` and `tag`. -/
structure LarkTitle where
  content : String
  tag : String

/-- Rust `struct LarkHeader`, with fields `template` and `title`. -/
structure LarkHeader where
  template : String
  title : LarkTitle

/-- Rust `struct LarkCard`, with fields `header` and `elements`. -/
structure LarkCard where
  header : LarkHeader
  elements : List Json

/-- Rust `struct LarkMessage`, with fields `msg_type` and `card`. -/
structure LarkMessage where
  msg_type : String
  card : LarkCard

-- ---------------------------------------------------------------------------
-- src/src/main.rs lines 105-122: priority → colour / label mappings
-- ---------------------------------------------------------------------------

/-- Rust `fn priority_color(priority: u8)`. -/
def priority_color (priority : Nat) : String :=
  match priority with
  | 1 => "red"
  | 2 => "orange"
  | 3 => "yellow"
  | _ => "blue"

/-- Rust `fn priority_label(priority: u8)`. -/
def priority_label (priority : Nat) : String :=
  match priority with
  | 1 => "Urgent"
  | 2 => "High"
  | 3 => "Medium"
  | 4 => "Low"
  | _ => "None"

-- ---------------------------------------------------------------------------
-- src/src/main.rs lines 128-209: build the Lark interactive card
-- ---------------------------------------------------------------------------

/-- The action → human-label match inside `build_lark_card` (lines 130-134):
"create" → "Created", "update" → "Updated", anything else verbatim. -/
def action_label (action : String) : String :=
  if action = "create" then "Created"
  else if action = "update" then "Updated"
  else action

/-- The assignee display name (lines 136-141): the assignee's name if
present, else "Unassigned". -/
def assignee_display (data : Issue) : String :=
  match data.assignee with
  | some a => a.name
  | none => "Unassigned"

/-- The `title_element` value (lines 143-149). -/
def title_element (payload : LinearPayload) : Json :=
  .obj [("tag", .str "div"),
        ("text", .obj [("tag", .str "lark_md"),
                       ("content", .str ("**" ++ payload.data.title ++ "**"))])]

/-- The `fields_element` value (lines 151-176). -/
def fields_element (payload : LinearPayload) : Json :=
  .obj [("tag", .str "div"),
        ("fields", .arr
          [.obj [("is_short", .bool true),
                 ("text", .obj [("tag", .str "lark_md"),
                                ("content", .str ("**Status:** " ++ payload.data.state.name))])],
           .obj [("is_short", .bool true),
                 ("text", .obj [("tag", .str "lark_md"),
                                ("content", .str ("**Priority:** " ++ priority_label payload.data.priority))])],
           .obj [("is_short", .bool true),
                 ("text", .obj [("tag", .str "lark_md"),
                                ("content", .str ("**Assignee:** " ++ assignee_display payload.data))])]])]

/-- The `action_element` value (lines 178-191). -/
def action_element (payload : LinearPayload) : Json :=
  .obj [("tag", .str "action"),
        ("actions", .arr
          [.obj [("tag", .str "button"),
                 ("text", .obj [("tag", .str "plain_text"),
                                ("content", .str "View in Linear")]),
                 ("type", .str "primary"),
                 ("url", .str payload.url)]])]

/-- Rust `fn build_lark_card` (lines 128-209). -/
def build_lark_card (payload : LinearPayload) : LarkMessage :=
  let color := priority_color payload.data.priority
  { msg_type := "interactive"
    card :=
      { header :=
          { template := color
            title :=
              { content := "[Linear] " ++ action_label payload.action ++ ": "
                  ++ payload.data.identifier
                tag := "plain_text" } }
        elements := [title_element payload, fields_element payload, action_element payload] } }

-- ---------------------------------------------------------------------------
-- serde deserialization of the derived `Deserialize` impls, from a JSON tree.
-- Unknown fields are ignored (no `deny_unknown_fields`); an `Option` field
-- is `None` when missing or null; every other field is required.
-- ---------------------------------------------------------------------------

/-- Look up a field of a JSON object; `none` on non-objects. -/
def Json.getField (j : Json) (key : String) : Option Json :=
  match j with
  | .obj fields => fields.lookup key
  | _ => none

/-- Deserialize a JSON string. -/
def Json.asString (j : Json) : Option String :=
  match j with
  | .str s => some s
  | _ => none

/-- Deserialize a `u8`: an integer in `[0, 256)`. -/
def Json.asU8 (j : Json) : Option Nat :=
  match j with
  | .num n => if 0 ≤ n ∧ n < 256 then some n.toNat else none
  | _ => none

/-- Derived `Deserialize` for `IssueState`. -/
def IssueState.fromJson (j : Json) : Option IssueState := do
  let name ← (j.getField "name").bind Json.asString
  pure { name := name }

/-- Derived `Deserialize` for `Assignee`. -/
def Assignee.fromJson (j : Json) : Option Assignee := do
  let name ← (j.getField "name").bind Json.asString
  pure { name := name }

/-- Derived `Deserialize` for `Issue`: every field required except the
`Option` field `assignee` (missing or null ⇒ `none`, a present object must
itself deserialize). -/
def Issue.fromJson (j : Json) : Option Issue := do
  let id ← (j.getField "id").bind Json.asString
  let title ← (j.getField "title").bind Json.asString
  let priority ← (j.getField "priority").bind Json.asU8
  let state ← (j.getField "state").bind IssueState.fromJson
  let assignee ← match j.getField "assignee" with
    | none => some none
    | some .null => some none
    | some a => (Assignee.fromJson a).map some
  let identifier ← (j.getField "identifier").bind Json.asString
  pure { id := id, title := title, priority := priority, state := state,
         assignee := assignee, identifier := identifier }

/-- Derived `Deserialize` for `LinearPayload` (the JSON field `type` feeds
`kind`). -/
def LinearPayload.fromJson (j : Json) : Option LinearPayload := do
  let action ← (j.getField "action").bind Json.asString
  let kind ← (j.getField "type").bind Json.asString
  let data ← (j.getField "data").bind Issue.fromJson
  let url ← (j.getField "url").bind Json.asString
  pure { action := action, kind := kind, data := data, url := url }

-- ---------------------------------------------------------------------------
-- src/src/main.rs lines 215-282: the webhook handler
-- ---------------------------------------------------------------------------

/-- Model of `HeaderValue::to_str`: succeeds exactly when every byte is visible ASCII
(32-126) or tab. -/
def headerToStr (bytes : List Nat) : Option String :=
  if bytes.all (fun b => b == 9 || (32 ≤ b && b ≤ 126)) then
    some (String.mk (bytes.map Char.ofNat))
  else
    none

/-- Outcome of the downstream Lark POST (`reqwest` send result): a response
with some status and body text, or a transport error. The handler only logs
it. -/
inductive DeliveryOutcome where
  | sent (status : Nat) (text : String)
  | failed

/-- What the handler produces: the HTTP status code returned upstream, and
the card of the single outbound POST when one is issued (`none` ⇒ no
downstream call). -/
structure WebhookResponse where
  status : Nat
  outbound : Option LarkMessage

/-- The filter condition of step 3 (line 244), in positive form: the handler
skips exactly when this is `false`. -/
def shouldNotify (payload : LinearPayload) : Bool :=
  payload.kind == "Issue" && (payload.action == "create" || payload.action == "update")

/-- Rust `async fn webhook_handler` (lines 215-282). `jsonParse` stands for
serde_json's text-level parsing of the body bytes into a JSON tree
(`serde_json::from_slice` is then `jsonParse` composed with the derived
deserializer); `signatureHeader` is `headers.get("linear-signature")` as raw
bytes; `outcome` is the result of the downstream POST, which the handler
only logs. -/
def webhook_handler (jsonParse : List Nat → Option Json)
    (webhook_secret : List Nat) (signatureHeader : Option (List Nat))
    (body : List Nat) (outcome : DeliveryOutcome) : WebhookResponse :=
  match signatureHeader.bind headerToStr with
  | none => ⟨401, none⟩
  | some signature =>
    if ¬ verify_signature webhook_secret body signature then ⟨401, none⟩
    else
      match (jsonParse body).bind LinearPayload.fromJson with
      | none => ⟨400, none⟩
      | some payload =>
        if ¬ shouldNotify payload then
          ⟨200, none⟩
        else
          let card := build_lark_card payload
          match outcome with
          | .sent _ _ => ⟨200, some card⟩
          | .failed => ⟨200, some card⟩

-- ---------------------------------------------------------------------------
-- Concrete fixtures for witnesses and counterexamples
-- ---------------------------------------------------------------------------

/-- The bytes of an ASCII string, for building concrete header values. -/
def strBytes (s : String) : List Nat :=
  s.data.map Char.toNat

/-- The correct signature for the empty secret and empty body. -/
def sigEmptyEmpty : String := hexEncode (hmacSha256 [] [])

/-- The `data` object of the end-to-end test payload of the spec (§8). -/
def jIssue42 : Json :=
  .obj [("id", .str "abc123"), ("title", .str "Fix bug"), ("priority", .num 2),
        ("state", .obj [("name", .str "In Progress")]),
        ("assignee", .obj [("name", .str "Ada")]),
        ("identifier", .str "ENG-42")]

/-- The end-to-end test payload of the spec (§8) as a JSON tree. -/
def j42 : Json :=
  .obj [("action", .str "update"), ("type", .str "Issue"),
        ("data", jIssue42), ("url", .str "https://example/ENG-42")]

/-- The end-to-end test payload of the spec (§8) as a parsed value. -/
def p42 : LinearPayload :=
  { action := "update", kind := "Issue"
    data := { id := "abc123", title := "Fix bug", priority := 2,
              state := { name := "In Progress" },
              assignee := some { name := "Ada" }, identifier := "ENG-42" }
    url := "https://example/ENG-42" }

/-- A payload that the filter skips: `type = "Project"`, `action = "delete"`. -/
def jSkip : Json :=
  .obj [("action", .str "delete"), ("type", .str "Project"),
        ("data", jIssue42), ("url", .str "https://example/ENG-42")]

/-- The payload `jSkip` as a parsed value. -/
def pSkip : LinearPayload :=
  { action := "delete", kind := "Project", data := p42.data,
    url := "https://example/ENG-42" }

/-- A payload whose `data` lacks the required `priority` field. -/
def jNoPriority : Json :=
  .obj [("action", .str "update"), ("type", .str "Issue"),
        ("data", .obj [("id", .str "abc123"), ("title", .str "Fix bug"),
                       ("state", .obj [("name", .str "In Progress")]),
                       ("identifier", .str "ENG-42")]),
        ("url", .str "https://example/ENG-42")]

/-- A payload with the out-of-range (but in-u8) priority 99. -/
def j99 : Json :=
  .obj [("action", .str "create"), ("type", .str "Issue"),
        ("data", .obj [("id", .str "abc123"), ("title", .str "Fix bug"),
                       ("priority", .num 99),
                       ("state", .obj [("name", .str "In Progress")]),
                       ("identifier", .str "ENG-42")]),
        ("url", .str "https://example/ENG-42")]

/-- The payload `j99` as a parsed value: no assignee, priority 99. -/
def p99 : LinearPayload :=
  { action := "create", kind := "Issue"
    data := { id := "abc123", title := "Fix bug", priority := 99,
              state := { name := "In Progress" },
              assignee := none, identifier := "ENG-42" }
    url := "https://example/ENG-42" }

-- ---------------------------------------------------------------------------
-- Helper lemmas
-- ---------------------------------------------------------------------------

/-- The function `verify_signature` accepts a string exactly when it is the lowercase hex
encoding of the HMAC-SHA256 digest. -/
theorem verify_signature_iff (secret body : List Nat) (s : String) :
    verify_signature secret body s = true ↔ s = hexEncode (hmacSha256 secret body) := by
  show (hexEncode (hmacSha256 secret body) == s) = true ↔ _
  rw [beq_iff_eq]
  exact eq_comm

/-- The default arm of `priority_color`. -/
theorem priority_color_default (p : Nat) (h1 : p ≠ 1) (h2 : p ≠ 2) (h3 : p ≠ 3) :
    priority_color p = "blue" := by
  rcases p with _ | (_ | (_ | (_ | p)))
  · rfl
  · exact absurd rfl h1
  · exact absurd rfl h2
  · exact absurd rfl h3
  · rfl

/-- The default arm of `priority_label`. -/
theorem priority_label_default (p : Nat) (h1 : p ≠ 1) (h2 : p ≠ 2) (h3 : p ≠ 3)
    (h4 : p ≠ 4) : priority_label p = "None" := by
  rcases p with _ | (_ | (_ | (_ | (_ | p))))
  · rfl
  · exact absurd rfl h1
  · exact absurd rfl h2
  · exact absurd rfl h3
  · exact absurd rfl h4
  · rfl

-- ---------------------------------------------------------------------------
-- Claim theorems
-- ---------------------------------------------------------------------------

/-- Claim C4: the colour and label mappings are total and produce exactly the
documented literals: 1 ↦ red/Urgent, 2 ↦ orange/High, 3 ↦ yellow/Medium,
4 ↦ blue/Low, and every other value ↦ blue/None. -/
theorem c4_priority_maps :
    priority_color 1 = "red" ∧ priority_label 1 = "Urgent"
  ∧ priority_color 2 = "orange" ∧ priority_label 2 = "High"
  ∧ priority_color 3 = "yellow" ∧ priority_label 3 = "Medium"
  ∧ priority_color 4 = "blue" ∧ priority_label 4 = "Low"
  ∧ (∀ p : Nat, p ≠ 1 → p ≠ 2 → p ≠ 3 → priority_color p = "blue")
  ∧ (∀ p : Nat, p ≠ 1 → p ≠ 2 → p ≠ 3 → p ≠ 4 → priority_label p = "None") :=
  ⟨rfl, rfl, rfl, rfl, rfl, rfl, rfl, rfl,
   priority_color_default, priority_label_default⟩

/-- Witness for C4: the default arms at 0 and 99. -/
theorem c4_priority_maps_witness :
    priority_color 99 = "blue" ∧ priority_label 99 = "None"
  ∧ priority_color 0 = "blue" ∧ priority_label 0 = "None" :=
  ⟨c4_priority_maps.2.2.2.2.2.2.2.2.1 99 (by decide) (by decide) (by decide),
   c4_priority_maps.2.2.2.2.2.2.2.2.2 99 (by decide) (by decide) (by decide) (by decide),
   c4_priority_maps.2.2.2.2.2.2.2.2.1 0 (by decide) (by decide) (by decide),
   c4_priority_maps.2.2.2.2.2.2.2.2.2 0 (by decide) (by decide) (by decide) (by decide)⟩

/-- Claim C7: the card's header title is "[Linear] ", the action label, ": ",
and the identifier, where "create" ↦ "Created", "update" ↦ "Updated", and
any other action passes through verbatim. -/
theorem c7_header_title :
    (∀ p : LinearPayload,
      (build_lark_card p).card.header.title.content
        = "[Linear] " ++ action_label p.action ++ ": " ++ p.data.identifier)
  ∧ action_label "create" = "Created"
  ∧ action_label "update" = "Updated"
  ∧ (∀ a : String, a ≠ "create" → a ≠ "update" → action_label a = a) := by
  refine ⟨fun p => rfl, by decide, by decide, fun a h1 h2 => ?_⟩
  unfold action_label
  rw [if_neg h1, if_neg h2]

/-- Witness for C7: a verbatim pass-through at action "delete". -/
theorem c7_header_title_witness : action_label "delete" = "delete" :=
  c7_header_title.2.2.2 "delete" (by decide) (by decide)

/-- Claim C8: the card's elements are exactly three, in fixed order — the
bold title block, the fields block with the three short fields Status,
Priority and Assignee, and the action block with one button linking to the
event URL. -/
theorem c8_elements_structure (p : LinearPayload) :
    (build_lark_card p).card.elements.length = 3
  ∧ (build_lark_card p).card.elements
      = [Json.obj [("tag", .str "div"),
                   ("text", .obj [("tag", .str "lark_md"),
                                  ("content", .str ("**" ++ p.data.title ++ "**"))])],
         Json.obj [("tag", .str "div"),
                   ("fields", .arr
                     [.obj [("is_short", .bool true),
                            ("text", .obj [("tag", .str "lark_md"),
                                           ("content", .str ("**Status:** " ++ p.data.state.name))])],
                      .obj [("is_short", .bool true),
                            ("text", .obj [("tag", .str "lark_md"),
                                           ("content", .str ("**Priority:** " ++ priority_label p.data.priority))])],
                      .obj [("is_short", .bool true),
                            ("text", .obj [("tag", .str "lark_md"),
                                           ("content", .str ("**Assignee:** " ++ assignee_display p.data))])]])],
         Json.obj [("tag", .str "action"),
                   ("actions", .arr
                     [.obj [("tag", .str "button"),
                            ("text", .obj [("tag", .str "plain_text"),
                                           ("content", .str "View in Linear")]),
                            ("type", .str "primary"),
                            ("url", .str p.url)]])]] :=
  ⟨rfl, rfl⟩

/-- Unfolding `hexChars` on a cons. -/
theorem hexChars_cons (b : Nat) (bs : List Nat) :
    hexChars (b :: bs)
      = hexDigitChar ((b >>> 4) &&& 15) :: hexDigitChar (b &&& 15) :: hexChars bs := rfl

/-- Unfolding `hexUpperChars` on a cons. -/
theorem hexUpperChars_cons (b : Nat) (bs : List Nat) :
    hexUpperChars (b :: bs)
      = hexUpperDigitChar ((b >>> 4) &&& 15) :: hexUpperDigitChar (b &&& 15) :: hexUpperChars bs := rfl

/-- On nibbles, an alphabetic lowercase hex digit differs from its uppercase
counterpart. -/
theorem hexDigitChar_alpha_ne : ∀ n < 16,
    (hexDigitChar n).isAlpha = true → hexDigitChar n ≠ hexUpperDigitChar n := by
  decide

/-- If the lowercase hex encoding contains an alphabetic character, it differs
from the uppercase encoding. -/
theorem hexChars_ne_upper (bytes : List Nat)
    (h : (hexChars bytes).any Char.isAlpha = true) :
    hexChars bytes ≠ hexUpperChars bytes := by
  induction bytes with
  | nil => simp [hexChars] at h
  | cons b bs ih =>
    rw [hexChars_cons] at h ⊢
    rw [hexUpperChars_cons]
    intro heq
    have e1 := List.head_eq_of_cons_eq heq
    have etail := List.tail_eq_of_cons_eq heq
    have e2 := List.head_eq_of_cons_eq etail
    have e3 := List.tail_eq_of_cons_eq etail
    have hb1 : (b >>> 4) &&& 15 < 16 := Nat.lt_succ_of_le Nat.and_le_right
    have hb2 : b &&& 15 < 16 := Nat.lt_succ_of_le Nat.and_le_right
    simp only [List.any_cons, Bool.or_eq_true] at h
    rcases h with h1 | h2 | h3
    · exact hexDigitChar_alpha_ne _ hb1 h1 e1
    · exact hexDigitChar_alpha_ne _ hb2 h2 e2
    · exact ih h3 e3

/-- Claim C10: `verify_signature` accepts exactly one signature string — the
lowercase hex encoding of the HMAC-SHA256 digest — and whenever the digest's
hex encoding contains an alphabetic character, the uppercase encoding of the
correct digest is rejected. -/
theorem c10_lowercase_hex_only :
    (∀ (secret body : List Nat) (s : String),
        verify_signature secret body s = true
          ↔ s = hexEncode (hmacSha256 secret body))
  ∧ (∀ secret body : List Nat,
        (hexChars (hmacSha256 secret body)).any Char.isAlpha = true →
        verify_signature secret body (hexEncodeUpper (hmacSha256 secret body)) = false) := by
  refine ⟨verify_signature_iff, fun secret body h => ?_⟩
  rw [Bool.eq_false_iff]
  intro hv
  have he : hexEncodeUpper (hmacSha256 secret body)
      = hexEncode (hmacSha256 secret body) :=
    (verify_signature_iff secret body _).mp hv
  exact hexChars_ne_upper (hmacSha256 secret body) h (congrArg String.data he).symm

set_option maxRecDepth 20000 in
/-- Witness for C10: with the empty secret and body the digest's hex encoding
is alphabetic somewhere, and its uppercase form is rejected. -/
theorem c10_lowercase_hex_only_witness :
    verify_signature [] [] (hexEncodeUpper (hmacSha256 [] [])) = false :=
  c10_lowercase_hex_only.2 [] [] (by decide)

set_option maxRecDepth 20000 in
/-- Counterexample to claim C5: with the empty secret, the empty body, and
the matching HMAC-SHA256 signature (the well-known digest of the empty key
and message), `verify_signature` returns `true`, not `false` — HMAC key
setup accepts the empty key, so an empty secret is not rejected. -/
theorem c5_empty_secret_counterexample :
    hexEncode (hmacSha256 [] [])
      = "b613679a0814d9ec772f95d778c35fc5ff1697c493715653c6c712144292c5ad"
  ∧ verify_signature [] []
      "b613679a0814d9ec772f95d778c35fc5ff1697c493715653c6c712144292c5ad" = true :=
  ⟨by decide, by decide⟩

/-- Claim C5 as amended: `verify_signature` is a total function that returns
`false` exactly when the presented string differs from the lowercase hex
HMAC-SHA256 of the body under the secret's bytes — also for the empty secret,
under which the HMAC is still computed with the empty key; hash construction
never fails. -/
theorem c5_verify_false_amended (secret body : List Nat) (s : String)
    (h : s ≠ hexEncode (hmacSha256 secret body)) :
    verify_signature secret body s = false := by
  rw [Bool.eq_false_iff]
  intro hv
  exact h ((verify_signature_iff secret body s).mp hv)

set_option maxRecDepth 20000 in
/-- Witness for the amended C5: the empty string is not the 64-character
digest encoding, so it is rejected. -/
theorem c5_verify_false_amended_witness :
    verify_signature [] [] "" = false :=
  c5_verify_false_amended [] [] "" (by decide)

/-- Claim C2: the handler answers 401 on a missing or unparseable signature
header and on failed verification, 400 on a body that does not parse into the
payload, and 200 otherwise — on the Skip path and on the Notify path for
every delivery outcome — and never any other status code. -/
theorem c2_status_codes (jsonParse : List Nat → Option Json) (secret : List Nat)
    (hdr : Option (List Nat)) (body : List Nat) (outcome : DeliveryOutcome) :
    (hdr.bind headerToStr = none →
        webhook_handler jsonParse secret hdr body outcome = ⟨401, none⟩)
  ∧ (∀ s, hdr.bind headerToStr = some s → verify_signature secret body s = false →
        webhook_handler jsonParse secret hdr body outcome = ⟨401, none⟩)
  ∧ (∀ s, hdr.bind headerToStr = some s → verify_signature secret body s = true →
        (jsonParse body).bind LinearPayload.fromJson = none →
        webhook_handler jsonParse secret hdr body outcome = ⟨400, none⟩)
  ∧ (∀ s p, hdr.bind headerToStr = some s → verify_signature secret body s = true →
        (jsonParse body).bind LinearPayload.fromJson = some p →
        (webhook_handler jsonParse secret hdr body outcome).status = 200)
  ∧ ((webhook_handler jsonParse secret hdr body outcome).status = 200
      ∨ (webhook_handler jsonParse secret hdr body outcome).status = 400
      ∨ (webhook_handler jsonParse secret hdr body outcome).status = 401) := by
  refine ⟨?_, ?_, ?_, ?_, ?_⟩
  · intro h
    unfold webhook_handler
    rw [h]
  · intro s hs hv
    unfold webhook_handler
    rw [hs]
    simp [hv]
  · intro s hs hv hp
    unfold webhook_handler
    rw [hs]
    simp [hv, hp]
  · intro s p hs hv hp
    unfold webhook_handler
    rw [hs]
    simp only [hv, hp]
    by_cases hn : shouldNotify p
    · simp [hn]
      cases outcome <;> rfl
    · simp [hn]
  · unfold webhook_handler
    cases hh : hdr.bind headerToStr with
    | none => simp
    | some s =>
      by_cases hv : verify_signature secret body s = true
      · simp only [hv]
        cases hp : (jsonParse body).bind LinearPayload.fromJson with
        | none => simp
        | some p =>
          simp only
          by_cases hn : shouldNotify p
          · simp [hn]
            cases outcome <;> simp
          · simp [hn]
      · have hv' : verify_signature secret body s = false := by
          cases hvb : verify_signature secret body s with
          | false => rfl
          | true => exact absurd hvb hv
        simp [hv']

set_option maxRecDepth 40000 in
/-- Witness for C2: a missing header gives 401, a wrong signature gives 401,
an unparseable body with a correct signature gives 400, and a parsed Skip
payload gives 200. -/
theorem c2_status_codes_witness :
    webhook_handler (fun _ => none) [] none [] .failed = ⟨401, none⟩
  ∧ webhook_handler (fun _ => none) [] (some (strBytes "bad")) [] .failed = ⟨401, none⟩
  ∧ webhook_handler (fun _ => none) [] (some (strBytes sigEmptyEmpty)) [] .failed = ⟨400, none⟩
  ∧ (webhook_handler (fun _ => some jSkip) [] (some (strBytes sigEmptyEmpty)) [] .failed).status
      = 200 :=
  ⟨(c2_status_codes (fun _ => none) [] none [] .failed).1 (by decide),
   (c2_status_codes (fun _ => none) [] (some (strBytes "bad")) [] .failed).2.1
      "bad" (by decide) (by decide),
   (c2_status_codes (fun _ => none) [] (some (strBytes sigEmptyEmpty)) [] .failed).2.2.1
      sigEmptyEmpty (by decide) (by decide) (by decide),
   (c2_status_codes (fun _ => some jSkip) [] (some (strBytes sigEmptyEmpty)) [] .failed).2.2.2.1
      sigEmptyEmpty pSkip (by decide) (by decide) (by decide)⟩

/-- Claim C3: classification notifies exactly when `kind = "Issue"` and the
action is "create" or "update"; in every other case the handler issues no
downstream POST and still answers 200. -/
theorem c3_classification :
    (∀ p : LinearPayload, shouldNotify p = true
        ↔ (p.kind = "Issue" ∧ (p.action = "create" ∨ p.action = "update")))
  ∧ (∀ (jsonParse : List Nat → Option Json) (secret : List Nat)
        (hdr : Option (List Nat)) (body : List Nat) (outcome : DeliveryOutcome)
        (s : String) (p : LinearPayload),
        hdr.bind headerToStr = some s →
        verify_signature secret body s = true →
        (jsonParse body).bind LinearPayload.fromJson = some p →
        shouldNotify p = false →
        webhook_handler jsonParse secret hdr body outcome = ⟨200, none⟩) := by
  constructor
  · intro p
    simp [shouldNotify]
  · intro jsonParse secret hdr body outcome s p hs hv hp hn
    unfold webhook_handler
    rw [hs]
    simp [hv, hp, hn]

set_option maxRecDepth 40000 in
/-- Witness for C3: a correctly signed `type = "Project"`, `action = "delete"`
payload is acknowledged with 200 and produces no outbound card. -/
theorem c3_classification_witness :
    webhook_handler (fun _ => some jSkip) [] (some (strBytes sigEmptyEmpty)) [] .failed
      = ⟨200, none⟩ :=
  c3_classification.2 (fun _ => some jSkip) [] (some (strBytes sigEmptyEmpty)) [] .failed
    sigEmptyEmpty pSkip (by decide) (by decide) (by decide) (by decide)

/-- Claim C6 as amended: a present priority outside [0,4] that still fits in
a `u8` deserializes, maps to the default bucket (colour "blue", label
"None"), and the event is processed to a 200 response exactly as for an
in-range priority; an absent priority is a missing required field. -/
theorem c6_out_of_range_priority_amended :
    (∀ n : Nat, 5 ≤ n → n < 256 → Json.asU8 (.num (Int.ofNat n)) = some n)
  ∧ (∀ p : LinearPayload, 5 ≤ p.data.priority →
        priority_color p.data.priority = "blue"
      ∧ priority_label p.data.priority = "None"
      ∧ (build_lark_card p).card.header.template = "blue")
  ∧ (∀ (jsonParse : List Nat → Option Json) (secret : List Nat)
        (hdr : Option (List Nat)) (body : List Nat) (outcome : DeliveryOutcome)
        (s : String) (p : LinearPayload),
        hdr.bind headerToStr = some s →
        verify_signature secret body s = true →
        (jsonParse body).bind LinearPayload.fromJson = some p →
        shouldNotify p = true →
        webhook_handler jsonParse secret hdr body outcome
          = ⟨200, some (build_lark_card p)⟩) := by
  refine ⟨?_, ?_, ?_⟩
  · intro n h5 h256
    show (if 0 ≤ Int.ofNat n ∧ Int.ofNat n < 256 then some (Int.ofNat n).toNat else none)
      = some n
    rw [if_pos ⟨Int.ofNat_nonneg n, Int.ofNat_lt.mpr h256⟩]
    simp
  · intro p h5
    have hc : priority_color p.data.priority = "blue" :=
      priority_color_default _ (by omega) (by omega) (by omega)
    have hl : priority_label p.data.priority = "None" :=
      priority_label_default _ (by omega) (by omega) (by omega) (by omega)
    refine ⟨hc, hl, ?_⟩
    show priority_color p.data.priority = "blue"
    exact hc
  · intro jsonParse secret hdr body outcome s p hs hv hp hn
    unfold webhook_handler
    rw [hs]
    simp [hv, hp, hn]
    cases outcome <;> rfl

set_option maxRecDepth 40000 in
/-- Witness for the amended C6: the priority-99 payload deserializes, builds
a blue/None card, and a correctly signed request carrying it yields 200 with
exactly that outbound card. -/
theorem c6_out_of_range_priority_amended_witness :
    Json.asU8 (.num (Int.ofNat 99)) = some 99
  ∧ priority_color p99.data.priority = "blue"
  ∧ (build_lark_card p99).card.header.template = "blue"
  ∧ webhook_handler (fun _ => some j99) [] (some (strBytes sigEmptyEmpty)) [] .failed
      = ⟨200, some (build_lark_card p99)⟩ :=
  ⟨c6_out_of_range_priority_amended.1 99 (by decide) (by decide),
   (c6_out_of_range_priority_amended.2.1 p99 (by decide)).1,
   (c6_out_of_range_priority_amended.2.1 p99 (by decide)).2.2,
   c6_out_of_range_priority_amended.2.2 (fun _ => some j99) []
     (some (strBytes sigEmptyEmpty)) [] .failed sigEmptyEmpty p99
     (by decide) (by decide) (by decide) (by decide)⟩

set_option maxRecDepth 40000 in
/-- Counterexample to claim C6: a payload whose `data` lacks the `priority`
field does not deserialize, and a correctly signed request carrying it is
answered 400 — an error response — rather than the default bucket. -/
theorem c6_absent_priority_counterexample :
    LinearPayload.fromJson jNoPriority = none
  ∧ webhook_handler (fun _ => some jNoPriority) [] (some (strBytes sigEmptyEmpty)) [] .failed
      = ⟨400, none⟩ :=
  ⟨by decide, by rfl⟩

/-- Claim C9: for the spec's end-to-end payload (Issue/update, "Fix bug",
priority 2, state "In Progress", assignee "Ada", ENG-42) the one outbound
card has header title "[Linear] Updated: ENG-42", colour "orange" and the
three fields Status/Priority/Assignee with the documented contents; and a
payload with no assignee displays the literal "Unassigned". -/
theorem c9_end_to_end :
    (build_lark_card p42).card.header.title.content = "[Linear] Updated: ENG-42"
  ∧ (build_lark_card p42).card.header.template = "orange"
  ∧ fields_element p42
      = Json.obj [("tag", .str "div"),
                  ("fields", .arr
                    [.obj [("is_short", .bool true),
                           ("text", .obj [("tag", .str "lark_md"),
                                          ("content", .str "**Status:** In Progress")])],
                     .obj [("is_short", .bool true),
                           ("text", .obj [("tag", .str "lark_md"),
                                          ("content", .str "**Priority:** High")])],
                     .obj [("is_short", .bool true),
                           ("text", .obj [("tag", .str "lark_md"),
                                          ("content", .str "**Assignee:** Ada")])]])]
  ∧ LinearPayload.fromJson j42 = some p42
  ∧ (∀ (jsonParse : List Nat → Option Json) (secret : List Nat)
        (hdr : Option (List Nat)) (body : List Nat) (outcome : DeliveryOutcome)
        (s : String),
        hdr.bind headerToStr = some s →
        verify_signature secret body s = true →
        (jsonParse body).bind LinearPayload.fromJson = some p42 →
        webhook_handler jsonParse secret hdr body outcome
          = ⟨200, some (build_lark_card p42)⟩)
  ∧ (∀ p : LinearPayload, p.data.assignee = none →
        assignee_display p.data = "Unassigned") := by
  refine ⟨by rfl, by rfl, by rfl, by rfl, ?_, ?_⟩
  · intro jsonParse secret hdr body outcome s hs hv hp
    unfold webhook_handler
    rw [hs]
    simp only [hv, hp]
    rw [if_neg (by decide)]
    cases outcome <;> rfl
  · intro p h
    unfold assignee_display
    rw [h]

set_option maxRecDepth 40000 in
/-- Witness for C9: a correctly signed request carrying the end-to-end
payload answers 200 with exactly the expected outbound card; the fixture
payload without an assignee displays "Unassigned". -/
theorem c9_end_to_end_witness :
    webhook_handler (fun _ => some j42) [] (some (strBytes sigEmptyEmpty)) []
        (.sent 200 "ok") = ⟨200, some (build_lark_card p42)⟩
  ∧ assignee_display p99.data = "Unassigned" :=
  ⟨c9_end_to_end.2.2.2.2.1 (fun _ => some j42) [] (some (strBytes sigEmptyEmpty)) []
      (.sent 200 "ok") sigEmptyEmpty (by decide) (by decide) (by decide),
   c9_end_to_end.2.2.2.2.2 p99 (by decide)⟩

